import Mathlib

/-!
Shallow embedding of the VOLTTRON Home Assistant driver interface
(`services/core/PlatformDriverAgent/platform_driver/interfaces/home_assistant.py`).

Python values are modelled by the inductive `PyVal` (floats become exact
rationals), Python exceptions by `PyExc`, and the HTTP layer by explicit
parameters: a `hub` function standing for `GET /api/states/{entity_id}` and a
`post` function standing for `requests.post` outcomes.  Functions that in the
source perform requests instead return the list of `ServiceCall`s they issue.
-/

namespace HomeAssistant

/-- A Python runtime value, restricted to the types the driver handles.
Floats are modelled as exact rationals. -/
inductive PyVal where
  | vint : Int → PyVal
  | vbool : Bool → PyVal
  | vstr : String → PyVal
  | vfloat : ℚ → PyVal
  | vnone : PyVal
deriving DecidableEq, Repr

/-- A Python exception, by class: `ValueError`, `IOError`, `KeyError`,
`TypeError`, and the generic `Exception` used for request failures.
All of these are subclasses of `Exception` and caught by `except Exception`. -/
inductive PyExc where
  | valueError : String → PyExc
  | ioError : String → PyExc
  | keyError : String → PyExc
  | typeError : String → PyExc
  | exc : String → PyExc
deriving DecidableEq, Repr

/-- The coercion callables appearing in `type_mapping` (str, int, float, bool). -/
inductive RegType where
  | tstr
  | tint
  | tfloat
  | tbool
deriving DecidableEq, Repr

/-- `type_mapping` from the source: name of a registry `Type` to a callable. -/
def type_mapping (s : String) : Option RegType :=
  if s = "string" then some .tstr
  else if s = "int" then some .tint
  else if s = "integer" then some .tint
  else if s = "float" then some .tfloat
  else if s = "bool" then some .tbool
  else if s = "boolean" then some .tbool
  else none

/-- Python `str(v)`.  For rationals this model prints the rational; no claim
depends on the string rendering of floats. -/
def pyStrOfVal : PyVal → String
  | .vint n => toString n
  | .vbool b => if b then "True" else "False"
  | .vstr s => s
  | .vfloat q => toString q
  | .vnone => "None"

/-- Python truthiness, as used by `if not regDef['Entity ID']`. -/
def pyTruthy : PyVal → Bool
  | .vint n => n ≠ 0
  | .vbool b => b
  | .vstr s => s ≠ ""
  | .vfloat q => q ≠ 0
  | .vnone => false

/-- Truncation of a rational toward zero, Python `int()` on a float. -/
def ratTrunc (q : ℚ) : Int :=
  if 0 ≤ q then ⌊q⌋ else ⌈q⌉

/-- Python `int(v)`.  String parsing is modelled for integer literals only;
no claim exercises string-to-int coercion. -/
def pyInt : PyVal → Except PyExc PyVal
  | .vint n => .ok (.vint n)
  | .vbool b => .ok (.vint (if b then 1 else 0))
  | .vfloat q => .ok (.vint (ratTrunc q))
  | .vstr s =>
    match s.toInt? with
    | some n => .ok (.vint n)
    | none => .error (.valueError ("invalid literal for int: " ++ s))
  | .vnone => .error (.typeError "int() argument must not be None")

/-- Python `float(v)`.  String parsing is modelled for integer literals only;
no claim exercises string-to-float coercion. -/
def pyFloat : PyVal → Except PyExc PyVal
  | .vint n => .ok (.vfloat n)
  | .vbool b => .ok (.vfloat (if b then 1 else 0))
  | .vfloat q => .ok (.vfloat q)
  | .vstr s =>
    match s.toInt? with
    | some n => .ok (.vfloat n)
    | none => .error (.valueError ("could not convert string to float: " ++ s))
  | .vnone => .error (.typeError "float() argument must not be None")

/-- `register.reg_type(value)`: apply the configured coercion callable. -/
def applyRegType : RegType → PyVal → Except PyExc PyVal
  | .tstr, v => .ok (.vstr (pyStrOfVal v))
  | .tint, v => pyInt v
  | .tfloat, v => pyFloat v
  | .tbool, v => .ok (.vbool (pyTruthy v))

/-- Python `isinstance(v, int)`; `bool` is a subclass of `int`. -/
def isInstInt : PyVal → Bool
  | .vint _ => true
  | .vbool _ => true
  | _ => false

/-- Numeric reading of a value, for Python arithmetic and `==` against numbers
(`True == 1`, `1.0 == 1`). -/
def pyToRat : PyVal → Option ℚ
  | .vint n => some (n : ℚ)
  | .vbool b => some (if b then 1 else 0)
  | .vfloat q => some q
  | _ => none

/-- Python `v == m` for an integer literal `m`. -/
def pyEqInt (v : PyVal) (m : Int) : Bool :=
  match pyToRat v with
  | some q => q = (m : ℚ)
  | none => false

/-- Python `v == s` for a string literal `s`. -/
def pyEqStr (v : PyVal) (s : String) : Bool :=
  match v with
  | .vstr t => t = s
  | _ => false

/-- Python substring test `needle in hay`. -/
def strContains (hay needle : String) : Bool :=
  hay.data.tails.any (fun t => needle.data.isPrefixOf t)

/-- Python `s.startswith(p)`, over the character list. -/
def strStartsWith (s p : String) : Bool :=
  p.data.isPrefixOf s.data

/-- Python `s.lower()` (ASCII case folding suffices here). -/
def strLower (s : String) : String :=
  String.mk (s.data.map Char.toLower)

/-- The domain denoted by an entity id per the spec's data model: its prefix
up to the first `.` (used only to state claims about routing). -/
def domainPrefix (s : String) : String :=
  String.mk (s.data.takeWhile (fun c => c ≠ '.'))

/-- A `HomeAssistantRegister`.  The base-class field `register_type` is the
constant `"byte"` for every register, so it is omitted.  `description` is
likewise dropped: the source passes the literal `''` to the base constructor. -/
structure Register where
  point_name : String
  read_only : Bool
  units : String
  reg_type : RegType
  attributes : List (String × PyVal)
  entity_id : String
  entity_point : String
  value : PyVal
deriving DecidableEq, Repr

/-- `HomeAssistantRegister.__init__`: note that `value` is initialised to
`None` and the `default_value` and `description` parameters are never stored. -/
def mkHomeAssistantRegister (read_only : Bool) (pointName units : String)
    (reg_type : RegType) (attributes : List (String × PyVal))
    (entity_id entity_point : String) (default_value : PyVal := .vnone)
    (description : String := "") : Register :=
  { point_name := pointName
    read_only := read_only
    units := units
    reg_type := reg_type
    attributes := attributes
    entity_id := entity_id
    entity_point := entity_point
    value := .vnone }

/-- The JSON document returned by `GET /api/states/{entity_id}`:
`entity_data.get("state", None)` is `state` (`.vnone` when absent) and
`entity_data.get("attributes", {})` is `attributes` (`[]` when absent). -/
structure EntityData where
  state : PyVal := .vnone
  attributes : List (String × PyVal) := []
deriving DecidableEq, Repr

/-- Python `attrs.get(k, 0)` on the attributes dict. -/
def lookupAttr (attrs : List (String × PyVal)) (k : String) : PyVal :=
  match attrs.find? (fun p => p.1 = k) with
  | some p => p.2
  | none => .vint 0

/-- One `requests.post` to `POST /api/services/{domain}/{service}` with the
given JSON payload. -/
structure ServiceCall where
  domain : String
  service : String
  data : List (String × PyVal)
deriving DecidableEq, Repr

/-- Outcome of a `requests.post`: HTTP 200, a non-200 status, or a
network-level `requests.RequestException`. -/
inductive PostOutcome where
  | ok
  | httpFail : String → PostOutcome
  | netFail : String → PostOutcome
deriving DecidableEq, Repr

/-- The hub's behaviour for posts: every call gets an outcome. -/
abbrev PostFn := ServiceCall → PostOutcome

/-- The hub's behaviour for state reads (`get_entity_data` already folded in:
HTTP non-200 and transport errors both surface as a raised exception). -/
abbrev HubFn := String → Except PyExc EntityData

/-- Result of a fragment of driver code that may issue posts and may raise:
the calls issued (in order, including a failing final one) and the outcome. -/
abbrev CallResult := List ServiceCall × Except PyExc Unit

/-- `_post_method`: issue one post; HTTP 200 succeeds, a non-200 status or a
network failure raises `Exception(err)`. -/
def post_method (post : PostFn) (c : ServiceCall) : CallResult :=
  ([c], match post c with
        | .ok => .ok ()
        | .httpFail msg => .error (.exc msg)
        | .netFail msg => .error (.exc msg))

/-- `turn_off_lights`. -/
def turn_off_lights (post : PostFn) (entity_id : String) : CallResult :=
  post_method post ⟨"light", "turn_off", [("entity_id", .vstr entity_id)]⟩

/-- `turn_on_lights`. -/
def turn_on_lights (post : PostFn) (entity_id : String) : CallResult :=
  post_method post ⟨"light", "turn_on", [("entity_id", .vstr entity_id)]⟩

/-- `change_brightness`: posts `light/turn_on` with a `brightness` field. -/
def change_brightness (post : PostFn) (entity_id : String) (value : PyVal) :
    CallResult :=
  post_method post
    ⟨"light", "turn_on", [("entity_id", .vstr entity_id), ("brightness", value)]⟩

/-- `set_input_boolean`: unlike the other writers this posts directly and only
prints on a non-200 status (no exception); a network-level failure still
raises out of `requests.post`. -/
def set_input_boolean (post : PostFn) (entity_id state : String) : CallResult :=
  let service := if state = "on" then "turn_on" else "turn_off"
  let c : ServiceCall := ⟨"input_boolean", service, [("entity_id", .vstr entity_id)]⟩
  ([c], match post c with
        | .netFail msg => .error (.exc msg)
        | _ => .ok ())

/-- `change_thermostat_mode`: if the entity id does not start with
`climate.` the method only logs and returns, issuing no call. -/
def change_thermostat_mode (post : PostFn) (entity_id mode : String) :
    CallResult :=
  if strStartsWith entity_id "climate." then
    post_method post
      ⟨"climate", "set_hvac_mode",
        [("entity_id", .vstr entity_id), ("hvac_mode", .vstr mode)]⟩
  else ([], .ok ())

/-- Round-half-to-even to an integer, Python `round` on floats
(modulo binary-float representation, absorbed by the rational model). -/
def roundHalfEven (q : ℚ) : Int :=
  let f := ⌊q⌋
  if q - f < 1/2 then f
  else if q - f > 1/2 then f + 1
  else if f % 2 = 0 then f else f + 1

/-- Python `round(q, 1)`. -/
def roundTo1 (q : ℚ) : ℚ := (roundHalfEven (q * 10) : ℚ) / 10

/-- `set_thermostat_temperature`: guarded on the `climate.` prefix; converts
using the interface-level `self.units` (not the target register's units),
raising `TypeError` if the arithmetic is applied to a non-numeric value. -/
def set_thermostat_temperature (post : PostFn) (selfUnits : Option String)
    (entity_id : String) (temperature : PyVal) : CallResult :=
  if strStartsWith entity_id "climate." then
    if selfUnits = some "C" then
      match pyToRat temperature with
      | some t =>
        post_method post
          ⟨"climate", "set_temperature",
            [("entity_id", .vstr entity_id),
             ("temperature", .vfloat (roundTo1 ((t - 32) * 5 / 9)))]⟩
      | none => ([], .error (.typeError "unsupported operand type for -"))
    else
      post_method post
        ⟨"climate", "set_temperature",
          [("entity_id", .vstr entity_id), ("temperature", temperature)]⟩
  else ([], .ok ())

/-- `_call_ha_service`. -/
def call_ha_service (post : PostFn) (domain service entity_id : String) :
    CallResult :=
  post_method post ⟨domain, service, [("entity_id", .vstr entity_id)]⟩

/-- `turn_off_switch`. -/
def turn_off_switch (post : PostFn) (entity_id : String) : CallResult :=
  call_ha_service post "switch" "turn_off" entity_id

/-- `turn_on_switch`. -/
def turn_on_switch (post : PostFn) (entity_id : String) : CallResult :=
  call_ha_service post "switch" "turn_on" entity_id

/-- `turn_off_fan`. -/
def turn_off_fan (post : PostFn) (entity_id : String) : CallResult :=
  call_ha_service post "fan" "turn_off" entity_id

/-- `turn_on_fan`. -/
def turn_on_fan (post : PostFn) (entity_id : String) : CallResult :=
  call_ha_service post "fan" "turn_on" entity_id

/-- The binary-state validation condition
`isinstance(value, int) and value in [0, 1]`. -/
def binaryOk (v : PyVal) : Bool :=
  isInstInt v && (pyEqInt v 0 || pyEqInt v 1)

/-- The brightness validation condition
`isinstance(value, int) and 0 <= value <= 255`. -/
def brightnessOk (v : PyVal) : Bool :=
  isInstInt v &&
    (match pyToRat v with
     | some q => decide (0 ≤ q) && decide (q ≤ 255)
     | none => false)

/-- The climate-state validation condition
`isinstance(value, int) and value in [0, 2, 3, 4]`. -/
def climateStateOk (v : PyVal) : Bool :=
  isInstInt v &&
    (pyEqInt v 0 || pyEqInt v 2 || pyEqInt v 3 || pyEqInt v 4)

/-- `_validate_binary_state`: the source tests
`not isinstance(value, int) or value not in (0, 1)`, the negation of
`binaryOk`. -/
def validate_binary_state (entity_id : String) (value : PyVal) :
    Except PyExc Unit :=
  if !binaryOk value then
    .error (.valueError
      ("State value for " ++ entity_id ++ " must be an integer 0 or 1, but received other"))
  else .ok ()

/-- `_handle_on_off_entity`: shared validation and routing for switch and fan. -/
def handle_on_off_entity (post : PostFn) (entity_id entity_point : String)
    (value : PyVal) (entity_kind : String) : CallResult :=
  if entity_point ≠ "state" then
    ([], .error (.valueError
      ("Unsupported entity point " ++ entity_point ++ " for " ++ entity_kind ++ " " ++ entity_id)))
  else
    match validate_binary_state entity_id value with
    | .error e => ([], .error e)
    | .ok _ =>
      if entity_kind = "switch" then
        if pyEqInt value 1 then turn_on_switch post entity_id
        else turn_off_switch post entity_id
      else if entity_kind = "fan" then
        if pyEqInt value 1 then turn_on_fan post entity_id
        else turn_off_fan post entity_id
      else
        ([], .error (.valueError
          ("Unsupported entity kind " ++ entity_kind ++ " for on/off handler")))

deriving instance DecidableEq for Except

/-- Result of `_set_point`: the register after the call (its `value` field may
have been mutated), the posts issued, and the returned value or the raised
exception. -/
structure SetPointResult where
  register : Register
  calls : List ServiceCall
  result : Except PyExc PyVal
deriving DecidableEq, Repr

/-- Package a call-issuing branch of `_set_point`: on success the method
returns `register.value`. -/
def finishSet (register : Register) (cr : CallResult) : SetPointResult :=
  ⟨register, cr.1,
    match cr.2 with
    | .ok _ => .ok register.value
    | .error e => .error e⟩

/-- `Interface._set_point`, given the register already looked up by name.
`selfUnits` is the interface-level `self.units` consulted by the thermostat
temperature path. -/
def set_point (post : PostFn) (selfUnits : Option String) (reg0 : Register)
    (value : PyVal) : SetPointResult :=
  if reg0.read_only then
    ⟨reg0, [], .error (.ioError
      ("Trying to write to a point configured read only: " ++ reg0.point_name))⟩
  else
    match applyRegType reg0.reg_type value with
    | .error e => ⟨reg0, [], .error e⟩
    | .ok coerced =>
      let register : Register := { reg0 with value := coerced }
      let entity_point := register.entity_point
      if strContains register.entity_id "light." then
        if entity_point = "state" then
          if binaryOk register.value then
            if pyEqInt register.value 1 then
              finishSet register (turn_on_lights post register.entity_id)
            else
              finishSet register (turn_off_lights post register.entity_id)
          else
            ⟨register, [], .error (.valueError
              ("State value for " ++ register.entity_id ++ " should be an integer value of 1 or 0"))⟩
        else if entity_point = "brightness" then
          if brightnessOk register.value then
            finishSet register
              (change_brightness post register.entity_id register.value)
          else
            ⟨register, [], .error (.valueError
              "Brightness value should be an integer between 0 and 255")⟩
        else
          ⟨register, [], .error (.valueError
            ("Unexpected point_name " ++ register.point_name ++ " for register " ++ register.entity_id))⟩
      else if strContains register.entity_id "input_boolean." then
        if entity_point = "state" then
          if binaryOk register.value then
            if pyEqInt register.value 1 then
              finishSet register (set_input_boolean post register.entity_id "on")
            else
              finishSet register (set_input_boolean post register.entity_id "off")
          else
            ⟨register, [], .error (.valueError
              ("State value for " ++ register.entity_id ++ " should be an integer value of 1 or 0"))⟩
        else
          finishSet register ([], .ok ())
      else if strContains register.entity_id "switch." then
        finishSet register
          (handle_on_off_entity post register.entity_id entity_point
            register.value "switch")
      else if strContains register.entity_id "fan." then
        finishSet register
          (handle_on_off_entity post register.entity_id entity_point
            register.value "fan")
      else if strContains register.entity_id "climate." then
        if entity_point = "state" then
          if climateStateOk register.value then
            if pyEqInt register.value 0 then
              finishSet register
                (change_thermostat_mode post register.entity_id "off")
            else if pyEqInt register.value 2 then
              finishSet register
                (change_thermostat_mode post register.entity_id "heat")
            else if pyEqInt register.value 3 then
              finishSet register
                (change_thermostat_mode post register.entity_id "cool")
            else
              finishSet register
                (change_thermostat_mode post register.entity_id "auto")
          else
            ⟨register, [], .error (.valueError
              "Climate state should be an integer value of 0, 2, 3, or 4")⟩
        else if entity_point = "temperature" then
          finishSet register
            (set_thermostat_temperature post selfUnits register.entity_id
              register.value)
        else
          ⟨register, [], .error (.valueError
            ("Currently set_point is supported only for thermostats state and temperature " ++ register.entity_id))⟩
      else
        ⟨register, [], .error (.valueError
          ("Unsupported entity_id: " ++ register.entity_id ++ ". Currently set_point is supported only for lights, input_booleans, switches, fans, and thermostats"))⟩

/-- Modelled from the spec: `BaseInterface.get_register_by_name` is framework
code not under `src/`; the spec describes the Catalog as a mapping from
`point_name` to Register. Lookup fails (an exception to the caller) when the
point is unknown. -/
def get_register_by_name (catalog : List Register) (name : String) :
    Except PyExc Register :=
  match catalog.find? (fun r => r.point_name = name) with
  | some r => .ok r
  | none => .error (.exc ("Point not configured on device: " ++ name))

/-- Modelled from the spec: `BaseInterface.insert_register`; the Catalog is a
mapping from `point_name` to Register in which a later duplicate definition
overwrites the earlier one. -/
def insert_register (catalog : List Register) (r : Register) : List Register :=
  if catalog.any (fun x => x.point_name = r.point_name) then
    catalog.map (fun x => if x.point_name = r.point_name then r else x)
  else catalog ++ [r]

/-- Modelled from the spec: `BasicRevert.set_default` records the default
registered for a point (later registrations overwrite). -/
def set_default (defaults : List (String × PyVal)) (name : String) (v : PyVal) :
    List (String × PyVal) :=
  if defaults.any (fun p => p.1 = name) then
    defaults.map (fun p => if p.1 = name then (name, v) else p)
  else defaults ++ [(name, v)]

/-- Modelled from the spec: `BaseInterface.get_registers_by_type "byte" ro`
returns the registers with the given read-only flag (every register of this
driver has register type `"byte"`). -/
def get_registers_by_type (catalog : List Register) (ro : Bool) :
    List Register :=
  catalog.filter (fun r => r.read_only = ro)

/-- `Interface.get_point`, given the register already looked up by name.
Note the source branches on `register.point_name`, not on
`register.entity_point`. -/
def get_point (hub : HubFn) (register : Register) : Except PyExc PyVal :=
  match hub register.entity_id with
  | .error e => .error e
  | .ok entity_data =>
    if register.point_name = "state" then
      .ok entity_data.state
    else
      .ok (lookupAttr entity_data.attributes register.point_name)

/-- `Interface.get_point` composed with the catalog lookup. -/
def get_point_by_name (hub : HubFn) (catalog : List Register) (name : String) :
    Except PyExc PyVal :=
  match get_register_by_name catalog name with
  | .error e => .error e
  | .ok register => get_point hub register

/-- The body of the `try` block of `_scrape_all` for one register: the updated
register and the entry to store in the result dict, if any.  In the climate
branch an unsupported state builds a `ValueError` but does not raise it
(the source lacks the `raise`), so the point is silently omitted. -/
def scrape_register_try (hub : HubFn) (register : Register) :
    Except PyExc (Register × Option (String × PyVal)) :=
  match hub register.entity_id with
  | .error e => .error e
  | .ok entity_data =>
    if strContains register.entity_id "climate." then
      if register.entity_point = "state" then
        let state := entity_data.state
        if pyEqStr state "off" then
          .ok ({ register with value := .vint 0 }, some (register.point_name, .vint 0))
        else if pyEqStr state "heat" then
          .ok ({ register with value := .vint 2 }, some (register.point_name, .vint 2))
        else if pyEqStr state "cool" then
          .ok ({ register with value := .vint 3 }, some (register.point_name, .vint 3))
        else if pyEqStr state "auto" then
          .ok ({ register with value := .vint 4 }, some (register.point_name, .vint 4))
        else
          .ok (register, none)
      else
        let attrVal := lookupAttr entity_data.attributes register.entity_point
        .ok ({ register with value := attrVal },
          some (register.point_name, attrVal))
    else if strStartsWith register.entity_id "light." ∨
        strStartsWith register.entity_id "input_boolean." ∨
        strStartsWith register.entity_id "switch." ∨
        strStartsWith register.entity_id "fan." then
      if register.entity_point = "state" then
        let state := entity_data.state
        if pyEqStr state "on" then
          .ok ({ register with value := .vint 1 }, some (register.point_name, .vint 1))
        else if pyEqStr state "off" then
          .ok ({ register with value := .vint 0 }, some (register.point_name, .vint 0))
        else
          .ok ({ register with value := state }, some (register.point_name, state))
      else
        let attrVal := lookupAttr entity_data.attributes register.entity_point
        .ok ({ register with value := attrVal },
          some (register.point_name, attrVal))
    else
      .ok (register, none)

/-- One iteration of the `_scrape_all` loop: the `except Exception` clause
catches any failure, logs, and moves on with the register untouched and no
entry stored. -/
def scrape_one (hub : HubFn) (register : Register) :
    Register × Option (String × PyVal) :=
  match scrape_register_try hub register with
  | .ok r => r
  | .error _ => (register, none)

/-- Python dict assignment `result[k] = v`: overwrite in place or append. -/
def dictInsert (d : List (String × PyVal)) (k : String) (v : PyVal) :
    List (String × PyVal) :=
  if d.any (fun p => p.1 = k) then
    d.map (fun p => if p.1 = k then (k, v) else p)
  else d ++ [(k, v)]

/-- The `_scrape_all` loop over a given register sequence, threading the
result dict and collecting the updated registers. -/
def scrape_loop (hub : HubFn) :
    List Register → List (String × PyVal) →
      List Register × List (String × PyVal)
  | [], result => ([], result)
  | register :: rest, result =>
    let (reg', entry) := scrape_one hub register
    let result' := match entry with
      | some (k, v) => dictInsert result k v
      | none => result
    let (regs', final) := scrape_loop hub rest result'
    (reg' :: regs', final)

/-- `Interface._scrape_all`: iterates the read-only registers followed by the
writable ones, regardless of flag, and returns the result dict. -/
def scrape_all (hub : HubFn) (catalog : List Register) :
    List Register × List (String × PyVal) :=
  scrape_loop hub
    (get_registers_by_type catalog true ++ get_registers_by_type catalog false) []

/-- One registry definition: a JSON mapping.  A field is `none` when the key
is absent; subscript access (`regDef['Entity ID']`) raises `KeyError` on an
absent key, `.get` access supplies a default. -/
structure RegDef where
  entityID : Option String := none
  entityPoint : Option String := none
  volttronPointName : Option String := none
  unitsKey : Option String := none
  writable : Option PyVal := none
  notes : Option String := none
  typeKey : Option String := none
  attrsKey : Option (List (String × PyVal)) := none
deriving DecidableEq, Repr

/-- The mutable state of the `Interface` object relevant to the claims:
the catalog and registered defaults (framework side), and the interface-level
`self.point_name` / `self.units` fields that `parse_config` overwrites on
every definition it processes. -/
structure DriverState where
  catalog : List Register := []
  defaults : List (String × PyVal) := []
  point_name : Option String := none
  units : Option String := none
deriving DecidableEq, Repr

/-- One iteration of the `parse_config` loop, in source order, returning the
state after the iteration and the exception raised, if any.  Key reads happen
in the order the source performs them, so a `KeyError` leaves the mutations
already made in place. -/
def parse_config_step (st : DriverState) (regDef : RegDef) :
    DriverState × Option PyExc :=
  match regDef.entityID with
  | none => (st, some (.keyError "Entity ID"))
  | some eid =>
    if eid = "" then (st, none)
    else
      let read_only :=
        strLower (pyStrOfVal (regDef.writable.getD (.vstr ""))) ≠ "true"
      match regDef.entityPoint with
      | none => (st, some (.keyError "Entity Point"))
      | some entity_point =>
        match regDef.volttronPointName with
        | none => (st, some (.keyError "Volttron Point Name"))
        | some pn =>
          let st1 := { st with point_name := some pn }
          match regDef.unitsKey with
          | none => (st1, some (.keyError "Units"))
          | some un =>
            let st2 := { st1 with units := some un }
            let description := regDef.notes.getD ""
            let default_value : PyVal := .vstr "Starting Value"
            let type_name := regDef.typeKey.getD "string"
            let reg_type := (type_mapping type_name).getD .tstr
            let attrs := regDef.attrsKey.getD []
            let register := mkHomeAssistantRegister read_only pn un reg_type
              attrs eid entity_point default_value description
            let st3 :=
              if default_value ≠ .vnone then
                { st2 with defaults := set_default st2.defaults pn register.value }
              else st2
            ({ st3 with catalog := insert_register st3.catalog register }, none)

/-- The `parse_config` loop over the definition list. -/
def parse_config_list (st : DriverState) : List RegDef →
    DriverState × Option PyExc
  | [] => (st, none)
  | d :: ds =>
    match parse_config_step st d with
    | (st', none) => parse_config_list st' ds
    | (st', some e) => (st', some e)

/-- `Interface.parse_config`: `None` input returns immediately; otherwise the
definitions are processed in order. -/
def parse_config (st : DriverState) (config : Option (List RegDef)) :
    DriverState × Option PyExc :=
  match config with
  | none => (st, none)
  | some defs => parse_config_list st defs

/-- The domain selected by `_set_point`'s dispatch chain: substring
containment (`"light." in entity_id`, etc.) tested in source order. -/
def dispatchDomain (eid : String) : Option String :=
  if strContains eid "light." then some "light"
  else if strContains eid "input_boolean." then some "input_boolean"
  else if strContains eid "switch." then some "switch"
  else if strContains eid "fan." then some "fan"
  else if strContains eid "climate." then some "climate"
  else none

/-- Whether a write's value fails the validation of its recognized
(domain, entity_point) pair, read off the branch conditions of `_set_point`. -/
def failsValidation (eid ep : String) (v : PyVal) : Bool :=
  if strContains eid "light." then
    (ep = "state" && !binaryOk v) || (ep = "brightness" && !brightnessOk v)
  else if strContains eid "input_boolean." then ep = "state" && !binaryOk v
  else if strContains eid "switch." then ep = "state" && !binaryOk v
  else if strContains eid "fan." then ep = "state" && !binaryOk v
  else if strContains eid "climate." then ep = "state" && !climateStateOk v
  else false

/-- The climate hub-state decoding table of `_scrape_all`'s climate
`state` branch. -/
def climDecode (s : String) : Option Int :=
  if s = "off" then some 0
  else if s = "heat" then some 2
  else if s = "cool" then some 3
  else if s = "auto" then some 4
  else none

/-- The climate mode-string encoding table of `_set_point`'s climate
`state` branch. -/
def climEncode (k : Int) : Option String :=
  if k = 0 then some "off"
  else if k = 2 then some "heat"
  else if k = 3 then some "cool"
  else if k = 4 then some "auto"
  else none

/-! Concrete material shared by the instances below. -/

/-- Register literal builder for concrete instances (empty attributes, fresh
`value = None`). -/
def sampleRegister (pn : String) (ro : Bool) (un : String) (rt : RegType)
    (eid ep : String) : Register :=
  { point_name := pn, read_only := ro, units := un, reg_type := rt,
    attributes := [], entity_id := eid, entity_point := ep, value := .vnone }

/-- A hub that accepts every service call. -/
def postOk : PostFn := fun _ => .ok

/-- A hub whose every entity reads back state `"off"` with no attributes. -/
def hubOffEmpty : HubFn := fun _ => .ok { state := .vstr "off", attributes := [] }

/-- The `switch_state` register of the repository's own mock test
(`test_get_switch_state`). -/
def regSwitchState : Register :=
  sampleRegister "switch_state" true "On/Off" .tint "switch.outlet" "state"

/-! ### C8 -/

/-- C8: for every register with `read_only = true`, `_set_point` raises the
read-only `IOError`, issues no service call, and returns the register
unchanged (in particular its stored `value` is untouched). -/
theorem set_point_read_only_rejects (post : PostFn) (selfUnits : Option String)
    (reg : Register) (value : PyVal) (h : reg.read_only = true) :
    set_point post selfUnits reg value =
      ⟨reg, [], .error (.ioError
        ("Trying to write to a point configured read only: " ++ reg.point_name))⟩ := by
  unfold set_point
  rw [h]
  simp

/-- Witness for C8 at the mock test's read-only switch register. -/
theorem set_point_read_only_rejects_witness :
    regSwitchState.read_only = true ∧
    set_point postOk none regSwitchState (.vint 1) =
      ⟨regSwitchState, [], .error (.ioError
        ("Trying to write to a point configured read only: " ++ regSwitchState.point_name))⟩ :=
  ⟨rfl, set_point_read_only_rejects postOk none regSwitchState (.vint 1) rfl⟩

/-! ### C10 -/

/-- `insert_register` keeps a catalog of `None`-valued registers
`None`-valued. -/
theorem insert_register_values_none (catalog : List Register) (r : Register)
    (hc : ∀ x ∈ catalog, x.value = .vnone) (hr : r.value = .vnone) :
    ∀ x ∈ insert_register catalog r, x.value = .vnone := by
  intro x hx
  unfold insert_register at hx
  split at hx
  · rcases List.mem_map.1 hx with ⟨y, hy, hxy⟩
    split at hxy
    · exact hxy ▸ hr
    · exact hxy ▸ hc y hy
  · rcases List.mem_append.1 hx with hy | hy
    · exact hc x hy
    · rw [List.mem_singleton.1 hy]
      exact hr

/-- `set_default` keeps a `None`-valued defaults table `None`-valued when the
value registered is `None`. -/
theorem set_default_values_none (defaults : List (String × PyVal))
    (name : String) (hd : ∀ p ∈ defaults, p.2 = .vnone) :
    ∀ p ∈ set_default defaults name .vnone, p.2 = .vnone := by
  intro p hp
  unfold set_default at hp
  split at hp
  · rcases List.mem_map.1 hp with ⟨q, hq, hpq⟩
    split at hpq
    · rw [← hpq]
    · exact hpq ▸ hd q hq
  · rcases List.mem_append.1 hp with hq | hq
    · exact hd p hq
    · rw [List.mem_singleton.1 hq]

/-- One `parse_config` iteration preserves the all-`None` property of catalog
values and registered defaults. -/
theorem parse_config_step_values_none (st : DriverState) (d : RegDef)
    (h1 : ∀ r ∈ st.catalog, r.value = .vnone)
    (h2 : ∀ p ∈ st.defaults, p.2 = .vnone) :
    (∀ r ∈ (parse_config_step st d).1.catalog, r.value = .vnone) ∧
    (∀ p ∈ (parse_config_step st d).1.defaults, p.2 = .vnone) := by
  unfold parse_config_step
  cases d.entityID with
  | none => exact ⟨h1, h2⟩
  | some eid =>
    by_cases he : eid = ""
    · simp only [he, if_pos rfl]
      exact ⟨h1, h2⟩
    · simp only [if_neg he]
      cases d.entityPoint with
      | none => exact ⟨h1, h2⟩
      | some ep =>
        cases d.volttronPointName with
        | none => exact ⟨h1, h2⟩
        | some pn =>
          cases d.unitsKey with
          | none => exact ⟨h1, h2⟩
          | some un =>
            simp only []
            constructor
            · exact insert_register_values_none _ _ h1 rfl
            · split
              · exact set_default_values_none _ _ h2
              · exact h2

/-- The `parse_config` loop preserves the all-`None` property. -/
theorem parse_config_list_values_none (ds : List RegDef) : ∀ (st : DriverState),
    (∀ r ∈ st.catalog, r.value = .vnone) →
    (∀ p ∈ st.defaults, p.2 = .vnone) →
    (∀ r ∈ (parse_config_list st ds).1.catalog, r.value = .vnone) ∧
    (∀ p ∈ (parse_config_list st ds).1.defaults, p.2 = .vnone) := by
  induction ds with
  | nil => exact fun st h1 h2 => ⟨h1, h2⟩
  | cons d ds ih =>
    intro st h1 h2
    obtain ⟨g1, g2⟩ := parse_config_step_values_none st d h1 h2
    unfold parse_config_list
    cases hstep : parse_config_step st d with
    | mk st' e =>
      rw [hstep] at g1 g2
      cases e with
      | none => exact ih st' g1 g2
      | some ex => exact ⟨g1, g2⟩

/-- C10: after `parse_config` runs from a fresh driver state, every register's
stored `value` is `None` and every registered default is `None`: the
`"Starting Value"` `default_value` is never stored, because the register
constructor initialises `value` to `None` and `set_default` is called with
`register.value`, not with `default_value`. -/
theorem parse_config_defaults_are_none (config : Option (List RegDef)) :
    (∀ r ∈ (parse_config {} config).1.catalog, r.value = .vnone) ∧
    (∀ p ∈ (parse_config {} config).1.defaults, p.2 = .vnone) ∧
    (∀ (ro : Bool) (pn un : String) (rt : RegType)
        (ats : List (String × PyVal)) (eid ep : String) (dv : PyVal)
        (desc : String),
      (mkHomeAssistantRegister ro pn un rt ats eid ep dv desc).value = .vnone) := by
  refine ⟨?_, ?_, fun _ _ _ _ _ _ _ _ _ => rfl⟩ <;>
    cases config with
    | none => simp [parse_config]
    | some defs =>
      first
      | exact (parse_config_list_values_none defs {} (by simp) (by simp)).1
      | exact (parse_config_list_values_none defs {} (by simp) (by simp)).2

/-! ### C1 -/

/-- C1 counterexample: `regSwitchState` has `entity_point = "state"` and the
hub reports state `"off"`, yet `get_point` does not return the raw hub state:
it returns the absent-attribute default `0`, because the source branches on
`point_name` (`"switch_state"`), not on `entity_point`.  This is the scenario
of the repository's own mock test `test_get_switch_state`. -/
theorem get_point_state_cex :
    regSwitchState.entity_point = "state" ∧
    hubOffEmpty regSwitchState.entity_id =
      .ok { state := .vstr "off", attributes := [] } ∧
    get_point hubOffEmpty regSwitchState = .ok (.vint 0) ∧
    (PyVal.vint 0) ≠ .vstr "off" := by
  refine ⟨rfl, rfl, ?_, by decide⟩
  decide

/-- C1 (amended): `get_point` returns the hub's raw state value exactly when
the register's `point_name` (not its `entity_point`) equals `"state"`, and
otherwise returns the attribute named by `point_name` from the hub document's
attributes, defaulting to 0 when that attribute is absent. -/
theorem get_point_uses_point_name (hub : HubFn) (register : Register)
    (d : EntityData) (h : hub register.entity_id = .ok d) :
    (register.point_name = "state" → get_point hub register = .ok d.state) ∧
    (register.point_name ≠ "state" →
      get_point hub register = .ok (lookupAttr d.attributes register.point_name)) ∧
    (register.point_name ≠ "state" →
      d.attributes.find? (fun p => p.1 = register.point_name) = none →
      get_point hub register = .ok (.vint 0)) := by
  unfold get_point
  rw [h]
  dsimp only
  refine ⟨fun hs => by rw [if_pos hs], fun hs => by rw [if_neg hs],
    fun hs hf => ?_⟩
  rw [if_neg hs]
  unfold lookupAttr
  rw [hf]

/-- Witness for C1's amended theorem at the mock test's switch register. -/
theorem get_point_uses_point_name_witness :
    regSwitchState.point_name ≠ "state" ∧
    get_point hubOffEmpty regSwitchState = .ok (.vint 0) :=
  ⟨by decide,
    (get_point_uses_point_name hubOffEmpty regSwitchState
      { state := .vstr "off", attributes := [] } rfl).2.2 (by decide) rfl⟩

/-! ### C7 -/

/-- Unfolding equation for one `parse_config` loop iteration. -/
theorem parse_config_list_cons (st : DriverState) (d : RegDef)
    (ds : List RegDef) :
    parse_config_list st (d :: ds) =
      match parse_config_step st d with
      | (st', none) => parse_config_list st' ds
      | (st', some e) => (st', some e) := rfl

/-- C7 counterexample: a definition with an absent `Entity ID` key is not
skipped — `regDef['Entity ID']` raises `KeyError`, so `parse_config` over the
single definition `{}` fails instead of producing an empty catalog. -/
theorem parse_config_absent_entity_id_cex :
    parse_config {} (some [{}]) = ({}, some (.keyError "Entity ID")) ∧
    (parse_config {} (some [{}])).2 ≠ none := by
  refine ⟨?_, by decide⟩
  decide

/-- C7 (amended): `parse_config` with no definitions (`None` or an empty
list) leaves the state untouched without failing; a definition whose
`entity_id` is present but empty is skipped; a definition whose `entity_id`
key is absent raises `KeyError` (it is not skipped); when all required keys
are present, the register inserted is read-only exactly when the lowercased
string form of `Writable` differs from `"true"`, and its coercion type falls
back to string for `Type` values outside `type_mapping`. -/
theorem parse_config_amended :
    (∀ st : DriverState, parse_config st none = (st, none)) ∧
    (∀ st : DriverState, parse_config st (some []) = (st, none)) ∧
    (∀ (st : DriverState) (d : RegDef) (ds : List RegDef),
      d.entityID = some "" →
      parse_config_list st (d :: ds) = parse_config_list st ds) ∧
    (∀ (st : DriverState) (d : RegDef) (ds : List RegDef),
      d.entityID = none →
      parse_config_list st (d :: ds) = (st, some (.keyError "Entity ID"))) ∧
    (∀ (st : DriverState) (d : RegDef) (eid ep pn un : String),
      d.entityID = some eid → eid ≠ "" → d.entityPoint = some ep →
      d.volttronPointName = some pn → d.unitsKey = some un →
      parse_config_step st d =
        ({ catalog := insert_register st.catalog
             (mkHomeAssistantRegister
               (strLower (pyStrOfVal (d.writable.getD (.vstr ""))) ≠ "true")
               pn un ((type_mapping (d.typeKey.getD "string")).getD .tstr)
               (d.attrsKey.getD []) eid ep (.vstr "Starting Value")
               (d.notes.getD ""))
           defaults := set_default st.defaults pn .vnone
           point_name := some pn
           units := some un }, none)) ∧
    (∀ t : String, type_mapping t = none →
      (type_mapping t).getD .tstr = .tstr) := by
  refine ⟨fun st => rfl, fun st => rfl, ?_, ?_, ?_, ?_⟩
  · intro st d ds h
    have hs : parse_config_step st d = (st, none) := by
      unfold parse_config_step
      rw [h]
      simp
    rw [parse_config_list_cons, hs]
  · intro st d ds h
    have hs : parse_config_step st d = (st, some (.keyError "Entity ID")) := by
      unfold parse_config_step
      rw [h]
    rw [parse_config_list_cons, hs]
  · intro st d eid ep pn un h1 h2 h3 h4 h5
    unfold parse_config_step
    rw [h1, h3, h4, h5]
    simp [h2, mkHomeAssistantRegister]
  · intro t h
    rw [h]
    rfl

/-- Witness for C7's amended theorem: the empty-`entity_id` skip and a fully
populated definition with `Writable` `"True"` and an unknown `Type`. -/
theorem parse_config_amended_witness :
    parse_config_list {}
        [{ entityID := some "" }] = parse_config_list {} [] ∧
    parse_config_step {}
        { entityID := some "switch.outlet", entityPoint := some "state",
          volttronPointName := some "switch_state", unitsKey := some "On/Off",
          writable := some (.vstr "True"), typeKey := some "mystery" } =
      ({ catalog := insert_register []
           (mkHomeAssistantRegister false "switch_state" "On/Off" .tstr []
             "switch.outlet" "state" (.vstr "Starting Value") "")
         defaults := set_default [] "switch_state" .vnone
         point_name := some "switch_state"
         units := some "On/Off" }, none) := by
  constructor
  · exact parse_config_amended.2.2.1 {} { entityID := some "" } [] rfl
  · have h := parse_config_amended.2.2.2.2.1 {}
      { entityID := some "switch.outlet", entityPoint := some "state",
        volttronPointName := some "switch_state", unitsKey := some "On/Off",
        writable := some (.vstr "True"), typeKey := some "mystery" }
      "switch.outlet" "state" "switch_state" "On/Off" rfl (by decide) rfl rfl rfl
    rw [h]
    decide

/-! ### C6 -/

/-- The registry used to exhibit the interface-level units lookup: the
thermostat temperature register declares `Units = "C"`, but a later
definition declares `Units = "F"`, which is what `self.units` retains. -/
def defsC6 : List RegDef := [
  { entityID := some "climate.thermostat", entityPoint := some "temperature",
    volttronPointName := some "thermostat_temp", unitsKey := some "C",
    writable := some (.vstr "true"), typeKey := some "int" },
  { entityID := some "switch.outlet", entityPoint := some "state",
    volttronPointName := some "switch_state", unitsKey := some "F",
    writable := some (.vstr "true"), typeKey := some "int" }]

/-- The thermostat temperature register produced by `defsC6`. -/
def regThermoTemp : Register :=
  sampleRegister "thermostat_temp" false "C" .tint "climate.thermostat"
    "temperature"

/-- Evaluation of the Fahrenheit-to-Celsius conversion at 72. -/
theorem roundTo1_at_72 :
    roundTo1 ((((72 : Int) : ℚ) - 32) * 5 / 9) = 111 / 5 := by
  unfold roundTo1 roundHalfEven
  norm_num

/-- C6 counterexample: after parsing `defsC6` the interface's `self.units` is
`"F"` (the last definition's `Units`), so a temperature write of 72 through
the register whose own `units` is `"C"` is forwarded unchanged, not converted
to 22.2 — the conversion is keyed on `self.units`, not on the target
register's `units` field. -/
theorem set_point_temperature_units_cex :
    (parse_config {} (some defsC6)).1.units = some "F" ∧
    get_register_by_name (parse_config {} (some defsC6)).1.catalog
      "thermostat_temp" = .ok regThermoTemp ∧
    regThermoTemp.units = "C" ∧
    (set_point postOk (parse_config {} (some defsC6)).1.units regThermoTemp
        (.vint 72)).calls =
      [⟨"climate", "set_temperature",
        [("entity_id", .vstr "climate.thermostat"),
         ("temperature", .vint 72)]⟩] ∧
    ((72 : ℚ) ≠ roundTo1 ((((72 : Int) : ℚ) - 32) * 5 / 9)) := by
  refine ⟨by decide, by decide, rfl, by decide, ?_⟩
  rw [roundTo1_at_72]
  norm_num

/-- C6 (amended): for a climate temperature write, if the interface-level
`self.units` (the `Units` of the last definition `parse_config` processed) is
`"C"` then the value sent to the hub is `(F − 32) × 5/9` rounded to one
decimal place, and for any other `self.units` the coerced input is forwarded
unchanged — regardless of the target register's own `units` field. -/
theorem set_point_temperature_conversion (post : PostFn)
    (selfUnits : Option String) (reg : Register) (value coerced : PyVal)
    (t : ℚ)
    (hro : reg.read_only = false)
    (hco : applyRegType reg.reg_type value = .ok coerced)
    (ht : pyToRat coerced = some t)
    (h1 : strContains reg.entity_id "light." = false)
    (h2 : strContains reg.entity_id "input_boolean." = false)
    (h3 : strContains reg.entity_id "switch." = false)
    (h4 : strContains reg.entity_id "fan." = false)
    (h5 : strContains reg.entity_id "climate." = true)
    (hep : reg.entity_point = "temperature")
    (hpre : strStartsWith reg.entity_id "climate." = true) :
    (selfUnits = some "C" →
      (set_point post selfUnits reg value).calls =
        [⟨"climate", "set_temperature",
          [("entity_id", .vstr reg.entity_id),
           ("temperature", .vfloat (roundTo1 ((t - 32) * 5 / 9)))]⟩]) ∧
    (selfUnits ≠ some "C" →
      (set_point post selfUnits reg value).calls =
        [⟨"climate", "set_temperature",
          [("entity_id", .vstr reg.entity_id),
           ("temperature", coerced)]⟩]) := by
  unfold set_point
  rw [hro, hco]
  dsimp only
  rw [h1, h2, h3, h4, h5, hep]
  simp only [Bool.false_eq_true, if_false, if_true, reduceIte]
  unfold set_thermostat_temperature
  rw [hpre]
  constructor
  · intro hu
    rw [hu, ht]
    simp [post_method, finishSet]
  · intro hu
    rw [if_neg hu, if_pos rfl]
    simp [post_method, finishSet]

/-- Witness for C6's amended theorem: `self.units = "C"` converts 72 to
22.2 exactly (well within the claim's ±0.1), `self.units = "F"` forwards 72. -/
theorem set_point_temperature_conversion_witness :
    (set_point postOk (some "C") regThermoTemp (.vint 72)).calls =
      [⟨"climate", "set_temperature",
        [("entity_id", .vstr regThermoTemp.entity_id),
         ("temperature",
          .vfloat (roundTo1 ((((72 : Int) : ℚ) - 32) * 5 / 9)))]⟩] ∧
    (set_point postOk (some "F") regThermoTemp (.vint 72)).calls =
      [⟨"climate", "set_temperature",
        [("entity_id", .vstr regThermoTemp.entity_id),
         ("temperature", .vint 72)]⟩] ∧
    |roundTo1 ((((72 : Int) : ℚ) - 32) * 5 / 9) - 222 / 10| ≤ 1 / 10 := by
  refine ⟨?_, ?_, ?_⟩
  · exact (set_point_temperature_conversion postOk (some "C") regThermoTemp
      (.vint 72) (.vint 72) ((72 : Int) : ℚ) rfl rfl rfl (by decide) (by decide)
      (by decide) (by decide) (by decide) rfl (by decide)).1 rfl
  · exact (set_point_temperature_conversion postOk (some "F") regThermoTemp
      (.vint 72) (.vint 72) ((72 : Int) : ℚ) rfl rfl rfl (by decide) (by decide)
      (by decide) (by decide) (by decide) rfl (by decide)).2 (by decide)
  · rw [roundTo1_at_72]
    norm_num

/-! ### C2 -/

/-- The brightness register of the repository's own mock tests. -/
def regBrightness : Register :=
  sampleRegister "light_brightness" false "brightness" .tint
    "light.living_room" "brightness"

/-- C2 counterexample: a brightness write of 300 raises the validation
`ValueError` and issues no HTTP call, but the register's stored value is not
unchanged — `register.value = register.reg_type(value)` executes before the
validation, so the stored value becomes 300. -/
theorem set_point_validation_mutation_cex :
    regBrightness.value = .vnone ∧
    (set_point postOk none regBrightness (.vint 300)).calls = [] ∧
    (set_point postOk none regBrightness (.vint 300)).result =
      .error (.valueError
        "Brightness value should be an integer between 0 and 255") ∧
    (set_point postOk none regBrightness (.vint 300)).register.value =
      .vint 300 := by
  refine ⟨rfl, ?_, ?_, ?_⟩ <;> decide

/-- C2 (amended): a write whose value fails validation for its recognized
(domain, entity_point) pair raises `ValueError` before any network call — no
HTTP request is issued — but the register's stored value is not left
unchanged: it has already been set to the coerced value. -/
theorem set_point_fail_fast (post : PostFn) (selfUnits : Option String)
    (reg : Register) (value coerced : PyVal)
    (hro : reg.read_only = false)
    (hco : applyRegType reg.reg_type value = .ok coerced)
    (hfail : failsValidation reg.entity_id reg.entity_point coerced = true) :
    (set_point post selfUnits reg value).calls = [] ∧
    (∃ msg, (set_point post selfUnits reg value).result =
      .error (.valueError msg)) ∧
    (set_point post selfUnits reg value).register =
      { reg with value := coerced } := by
  unfold set_point
  rw [hro, hco]
  dsimp only
  unfold failsValidation at hfail
  by_cases h1 : strContains reg.entity_id "light."
  · rw [if_pos h1] at hfail
    simp only [Bool.or_eq_true, Bool.and_eq_true, decide_eq_true_eq,
      Bool.not_eq_true'] at hfail
    simp only [h1, if_true, reduceIte]
    rcases hfail with ⟨hep, hb⟩ | ⟨hep, hb⟩ <;>
      simp [hep, hb]
  · rw [if_neg h1] at hfail
    simp only [Bool.not_eq_true] at h1
    simp only [h1, Bool.false_eq_true, if_false]
    by_cases h2 : strContains reg.entity_id "input_boolean."
    · rw [if_pos h2] at hfail
      simp only [Bool.and_eq_true, decide_eq_true_eq,
        Bool.not_eq_true'] at hfail
      obtain ⟨hep, hb⟩ := hfail
      simp [h2, hep, hb]
    · rw [if_neg h2] at hfail
      simp only [Bool.not_eq_true] at h2
      simp only [h2, Bool.false_eq_true, if_false]
      by_cases h3 : strContains reg.entity_id "switch."
      · rw [if_pos h3] at hfail
        simp only [Bool.and_eq_true, decide_eq_true_eq,
          Bool.not_eq_true'] at hfail
        obtain ⟨hep, hb⟩ := hfail
        simp [h3, hep, hb, handle_on_off_entity, validate_binary_state,
          finishSet]
      · rw [if_neg h3] at hfail
        simp only [Bool.not_eq_true] at h3
        simp only [h3, Bool.false_eq_true, if_false]
        by_cases h4 : strContains reg.entity_id "fan."
        · rw [if_pos h4] at hfail
          simp only [Bool.and_eq_true, decide_eq_true_eq,
            Bool.not_eq_true'] at hfail
          obtain ⟨hep, hb⟩ := hfail
          simp [h4, hep, hb, handle_on_off_entity, validate_binary_state,
            finishSet]
        · rw [if_neg h4] at hfail
          simp only [Bool.not_eq_true] at h4
          simp only [h4, Bool.false_eq_true, if_false]
          by_cases h5 : strContains reg.entity_id "climate."
          · rw [if_pos h5] at hfail
            simp only [Bool.and_eq_true, decide_eq_true_eq,
              Bool.not_eq_true'] at hfail
            obtain ⟨hep, hb⟩ := hfail
            simp [h5, hep, hb]
          · rw [if_neg h5] at hfail
            exact absurd hfail (by simp)

/-- Witness for C2's amended theorem at the brightness-300 write. -/
theorem set_point_fail_fast_witness :
    failsValidation regBrightness.entity_id regBrightness.entity_point
      (.vint 300) = true ∧
    (set_point postOk none regBrightness (.vint 300)).calls = [] ∧
    (∃ msg, (set_point postOk none regBrightness (.vint 300)).result =
      .error (.valueError msg)) ∧
    (set_point postOk none regBrightness (.vint 300)).register =
      { regBrightness with value := .vint 300 } :=
  ⟨by decide,
    set_point_fail_fast postOk none regBrightness (.vint 300) (.vint 300)
      rfl rfl (by decide)⟩

/-! ### C3 -/

/-- `finishSet` issues exactly the calls of its fragment. -/
theorem finishSet_calls (r : Register) (cr : CallResult) :
    (finishSet r cr).calls = cr.1 := rfl

/-- Every call issued by the switch/fan helper carries its `entity_kind` as
the service domain. -/
theorem handle_on_off_entity_domain (post : PostFn) (eid ep : String)
    (v : PyVal) (kind : String) :
    ∀ c ∈ (handle_on_off_entity post eid ep v kind).1, c.domain = kind := by
  intro c hc
  unfold handle_on_off_entity at hc
  repeat' split at hc
  all_goals
    simp_all [turn_on_switch, turn_off_switch, turn_on_fan, turn_off_fan,
      call_ha_service, post_method]

/-- Every call issued by the thermostat temperature writer is a climate
service call. -/
theorem set_thermostat_temperature_domain (post : PostFn)
    (selfUnits : Option String) (eid : String) (v : PyVal) :
    ∀ c ∈ (set_thermostat_temperature post selfUnits eid v).1,
      c.domain = "climate" := by
  intro c hc
  unfold set_thermostat_temperature at hc
  repeat' split at hc
  all_goals simp_all [post_method]

/-- Every call issued by the thermostat mode writer is a climate service
call. -/
theorem change_thermostat_mode_domain (post : PostFn) (eid mode : String) :
    ∀ c ∈ (change_thermostat_mode post eid mode).1, c.domain = "climate" := by
  intro c hc
  unfold change_thermostat_mode at hc
  repeat' split at hc
  all_goals simp_all [post_method]

/-- A register whose entity id contains `"light."` after the `fan.` prefix:
the spec's domain (the prefix up to the first `.`) is `fan`. -/
def regFanLight : Register :=
  sampleRegister "fan_state" false "On/Off" .tint "fan.light.bedroom" "state"

/-- C3 counterexample: the entity id `fan.light.bedroom` has domain prefix
`fan`, but `_set_point` routes the write to the light branch — the dispatch
tests substring containment (`"light." in entity_id` first), not the prefix,
so an id can be routed to a domain mentioned elsewhere in the identifier. -/
theorem set_point_substring_routing_cex :
    domainPrefix regFanLight.entity_id = "fan" ∧
    (set_point postOk none regFanLight (.vint 1)).calls =
      [⟨"light", "turn_on", [("entity_id", .vstr "fan.light.bedroom")]⟩] ∧
    ("light" : String) ≠ "fan" := by
  refine ⟨by decide, ?_, by decide⟩
  decide

/-- C3 (amended): `_set_point` dispatches by substring containment tested in
the order light, input_boolean, switch, fan, climate (`dispatchDomain`): an
entity id containing none of the five domain substrings raises the
unsupported-entity `ValueError` with no calls, and every service call issued
goes to the first domain whose substring occurs in the id — which is the
prefix domain only when no earlier domain token occurs in the identifier. -/
theorem set_point_dispatch_domains (post : PostFn) (selfUnits : Option String)
    (reg : Register) (value coerced : PyVal)
    (hro : reg.read_only = false)
    (hco : applyRegType reg.reg_type value = .ok coerced) :
    (dispatchDomain reg.entity_id = none →
      set_point post selfUnits reg value =
        ⟨{ reg with value := coerced }, [],
          .error (.valueError ("Unsupported entity_id: " ++ reg.entity_id ++
            ". Currently set_point is supported only for lights, input_booleans, switches, fans, and thermostats"))⟩) ∧
    (∀ d, dispatchDomain reg.entity_id = some d →
      ∀ c ∈ (set_point post selfUnits reg value).calls, c.domain = d) := by
  unfold set_point dispatchDomain
  rw [hro, hco]
  dsimp only
  by_cases h1 : strContains reg.entity_id "light."
  · simp only [h1, if_true, reduceIte]
    refine ⟨by simp, fun d hd c hc => ?_⟩
    obtain rfl : "light" = d := Option.some.inj hd
    repeat' split at hc
    all_goals
      simp_all [finishSet_calls, turn_on_lights, turn_off_lights,
        change_brightness, post_method]
  · simp only [Bool.not_eq_true] at h1
    simp only [h1, Bool.false_eq_true, if_false]
    by_cases h2 : strContains reg.entity_id "input_boolean."
    · simp only [h2, if_true, reduceIte]
      refine ⟨by simp, fun d hd c hc => ?_⟩
      obtain rfl : "input_boolean" = d := Option.some.inj hd
      repeat' split at hc
      all_goals
        simp_all [finishSet_calls, set_input_boolean]
    · simp only [Bool.not_eq_true] at h2
      simp only [h2, Bool.false_eq_true, if_false]
      by_cases h3 : strContains reg.entity_id "switch."
      · simp only [h3, if_true, reduceIte]
        refine ⟨by simp, fun d hd c hc => ?_⟩
        obtain rfl : "switch" = d := Option.some.inj hd
        rw [finishSet_calls] at hc
        exact handle_on_off_entity_domain post _ _ _ _ c hc
      · simp only [Bool.not_eq_true] at h3
        simp only [h3, Bool.false_eq_true, if_false]
        by_cases h4 : strContains reg.entity_id "fan."
        · simp only [h4, if_true, reduceIte]
          refine ⟨by simp, fun d hd c hc => ?_⟩
          obtain rfl : "fan" = d := Option.some.inj hd
          rw [finishSet_calls] at hc
          exact handle_on_off_entity_domain post _ _ _ _ c hc
        · simp only [Bool.not_eq_true] at h4
          simp only [h4, Bool.false_eq_true, if_false]
          by_cases h5 : strContains reg.entity_id "climate."
          · simp only [h5, if_true, reduceIte]
            refine ⟨by simp, fun d hd c hc => ?_⟩
            obtain rfl : "climate" = d := Option.some.inj hd
            repeat' split at hc
            all_goals
              first
              | exact change_thermostat_mode_domain post _ _ c
                  (by rwa [finishSet_calls] at hc)
              | exact set_thermostat_temperature_domain post _ _ _ c
                  (by rwa [finishSet_calls] at hc)
              | simp at hc
          · simp only [Bool.not_eq_true] at h5
            simp only [h5, Bool.false_eq_true, if_false]
            exact ⟨fun _ => by simp [hro], by simp⟩

/-- A writable switch register with a clean prefix-only entity id. -/
def regSwitchW : Register :=
  sampleRegister "switch_w" false "On/Off" .tint "switch.outlet" "state"

/-- A register with an unrecognized domain prefix. -/
def regSensor : Register :=
  sampleRegister "sensor_point" false "" .tint "sensor.temp" "state"

/-- Witness for C3's amended theorem: an unrecognized prefix errors with no
calls, and a switch write's calls all target the switch domain. -/
theorem set_point_dispatch_domains_witness :
    (dispatchDomain regSensor.entity_id = none ∧
      set_point postOk none regSensor (.vint 1) =
        ⟨{ regSensor with value := .vint 1 }, [],
          .error (.valueError ("Unsupported entity_id: " ++ regSensor.entity_id ++
            ". Currently set_point is supported only for lights, input_booleans, switches, fans, and thermostats"))⟩) ∧
    (dispatchDomain regSwitchW.entity_id = some "switch" ∧
      ∀ c ∈ (set_point postOk none regSwitchW (.vint 1)).calls,
        c.domain = "switch") :=
  ⟨⟨by decide,
    (set_point_dispatch_domains postOk none regSensor (.vint 1) (.vint 1)
      rfl rfl).1 (by decide)⟩,
   ⟨by decide,
    (set_point_dispatch_domains postOk none regSwitchW (.vint 1) (.vint 1)
      rfl rfl).2 "switch" (by decide)⟩⟩

/-! ### C9 -/

/-- A register whose entity id has prefix `input_boolean` but also contains
the substring `"light."` later in the identifier. -/
def regIBLight : Register :=
  sampleRegister "bool_mode" false "" .tint "input_boolean.light.kitchen"
    "mode"

/-- C9 counterexample: an input_boolean register (domain prefix
`input_boolean`) with a non-`state` entity point does not always complete
without error: an id also containing `"light."` is routed to the light
branch, which raises `ValueError` for the unsupported entity point. -/
theorem input_boolean_nonstate_cex :
    domainPrefix regIBLight.entity_id = "input_boolean" ∧
    regIBLight.entity_point ≠ "state" ∧
    (set_point postOk none regIBLight (.vint 1)).result =
      .error (.valueError
        "Unexpected point_name bool_mode for register input_boolean.light.kitchen") := by
  refine ⟨by decide, by decide, ?_⟩
  decide

/-- C9 (amended): for an input_boolean register that the substring dispatch
actually routes to the input_boolean branch (its entity id contains
`"input_boolean."` and not `"light."`), a non-`state` entity point is only
logged: no error is raised, no hub call is made, and the coerced value is
returned — unlike the other recognized domains, where an unsupported entity
point raises `ValueError`. -/
theorem input_boolean_nonstate_no_error (post : PostFn)
    (selfUnits : Option String) (reg : Register) (value coerced : PyVal)
    (hro : reg.read_only = false)
    (hco : applyRegType reg.reg_type value = .ok coerced)
    (hep : reg.entity_point ≠ "state") :
    (strContains reg.entity_id "light." = false →
      strContains reg.entity_id "input_boolean." = true →
      set_point post selfUnits reg value =
        ⟨{ reg with value := coerced }, [], .ok coerced⟩) ∧
    (strContains reg.entity_id "light." = false →
      strContains reg.entity_id "input_boolean." = false →
      strContains reg.entity_id "switch." = true →
      (set_point post selfUnits reg value).calls = [] ∧
      ∃ msg, (set_point post selfUnits reg value).result =
        .error (.valueError msg)) ∧
    (strContains reg.entity_id "light." = false →
      strContains reg.entity_id "input_boolean." = false →
      strContains reg.entity_id "switch." = false →
      strContains reg.entity_id "fan." = true →
      (set_point post selfUnits reg value).calls = [] ∧
      ∃ msg, (set_point post selfUnits reg value).result =
        .error (.valueError msg)) ∧
    (strContains reg.entity_id "light." = true →
      reg.entity_point ≠ "brightness" →
      (set_point post selfUnits reg value).calls = [] ∧
      ∃ msg, (set_point post selfUnits reg value).result =
        .error (.valueError msg)) ∧
    (strContains reg.entity_id "light." = false →
      strContains reg.entity_id "input_boolean." = false →
      strContains reg.entity_id "switch." = false →
      strContains reg.entity_id "fan." = false →
      strContains reg.entity_id "climate." = true →
      reg.entity_point ≠ "temperature" →
      (set_point post selfUnits reg value).calls = [] ∧
      ∃ msg, (set_point post selfUnits reg value).result =
        .error (.valueError msg)) := by
  unfold set_point
  rw [hro, hco]
  dsimp only
  refine ⟨?_, ?_, ?_, ?_, ?_⟩
  · intro h1 h2
    simp [h1, h2, hep, finishSet]
  · intro h1 h2 h3
    simp only [h1, h2, h3, Bool.false_eq_true, if_false, if_true, reduceIte]
    simp [handle_on_off_entity, hep, finishSet]
  · intro h1 h2 h3 h4
    simp only [h1, h2, h3, h4, Bool.false_eq_true, if_false, if_true,
      reduceIte]
    simp [handle_on_off_entity, hep, finishSet]
  · intro h1 hb
    simp only [h1, if_true, reduceIte]
    simp [hep, hb]
  · intro h1 h2 h3 h4 h5 ht
    simp only [h1, h2, h3, h4, h5, Bool.false_eq_true, if_false, if_true,
      reduceIte]
    simp [hep, ht]

/-- A plain input_boolean register with a non-`state` entity point. -/
def regIBPlain : Register :=
  sampleRegister "bool_mode2" false "" .tint "input_boolean.test" "mode"

/-- A switch register with the same non-`state` entity point. -/
def regSwitchMode : Register :=
  sampleRegister "switch_mode" false "" .tint "switch.outlet" "mode"

/-- Witness for C9's amended theorem: the plain input_boolean register
returns the coerced value with no calls, while the same entity point on a
switch register raises. -/
theorem input_boolean_nonstate_no_error_witness :
    set_point postOk none regIBPlain (.vint 7) =
      ⟨{ regIBPlain with value := .vint 7 }, [], .ok (.vint 7)⟩ ∧
    ((set_point postOk none regSwitchMode (.vint 7)).calls = [] ∧
      ∃ msg, (set_point postOk none regSwitchMode (.vint 7)).result =
        .error (.valueError msg)) := by
  constructor
  · exact (input_boolean_nonstate_no_error postOk none regIBPlain (.vint 7)
      (.vint 7) rfl rfl (by decide)).1 (by decide) (by decide)
  · exact (input_boolean_nonstate_no_error postOk none regSwitchMode
      (.vint 7) (.vint 7) rfl rfl
      (by decide)).2.1 (by decide) (by decide) (by decide)

/-! ### C5 -/

/-- The register sequence scraped is a permutation of the whole catalog:
read-only and writable registers are both iterated, each exactly once. -/
theorem scrape_registers_perm (catalog : List Register) :
    (get_registers_by_type catalog true ++
      get_registers_by_type catalog false).Perm catalog := by
  unfold get_registers_by_type
  have h : ∀ r ∈ catalog,
      (decide (r.read_only = false)) = !(decide (r.read_only = true)) := by
    intro r _
    cases hr : r.read_only <;> simp [hr]
  rw [List.filter_congr h]
  exact List.filter_append_perm _ _

/-- A healthy writable switch register. -/
def regHealthySwitch : Register :=
  sampleRegister "switch_state" false "On/Off" .tint "switch.outlet" "state"

/-- A read-only register whose entity the hub fails to serve. -/
def regBrokenLight : Register :=
  sampleRegister "light_state" true "On/Off" .tint "light.broken" "state"

/-- A hub that 404s on `light.broken` and reports `"on"` for everything
else. -/
def hubOneBroken : HubFn := fun eid =>
  if eid = "light.broken" then
    .error (.exc "Request failed with status code 404, Point name: light.broken")
  else .ok { state := .vstr "on", attributes := [] }

/-- C5: `_scrape_all` iterates every register in the catalog regardless of
its read-only flag; a register whose hub read raises is caught and omitted
(`scrape_one` is total, so no exception escapes the loop); a register whose
entity id matches no domain branch is omitted; a climate register with an
unrecognized hub state is omitted; and over a catalog with one failing and
one healthy register the result holds exactly the healthy point's value. -/
theorem scrape_all_isolates_failures (hub : HubFn) (catalog : List Register) :
    (scrape_all hub catalog =
      scrape_loop hub (get_registers_by_type catalog true ++
        get_registers_by_type catalog false) [] ∧
      (get_registers_by_type catalog true ++
        get_registers_by_type catalog false).Perm catalog) ∧
    (∀ (reg : Register) (e : PyExc), hub reg.entity_id = .error e →
      scrape_one hub reg = (reg, none)) ∧
    (∀ (reg : Register) (d : EntityData),
      strContains reg.entity_id "climate." = false →
      strStartsWith reg.entity_id "light." = false →
      strStartsWith reg.entity_id "input_boolean." = false →
      strStartsWith reg.entity_id "switch." = false →
      strStartsWith reg.entity_id "fan." = false →
      hub reg.entity_id = .ok d →
      scrape_one hub reg = (reg, none)) ∧
    (∀ (reg : Register) (d : EntityData) (s : String),
      strContains reg.entity_id "climate." = true →
      reg.entity_point = "state" →
      hub reg.entity_id = .ok d → d.state = .vstr s →
      climDecode s = none →
      scrape_one hub reg = (reg, none)) ∧
    (scrape_all hubOneBroken [regBrokenLight, regHealthySwitch]).2 =
      [("switch_state", .vint 1)] := by
  refine ⟨⟨rfl, scrape_registers_perm catalog⟩, ?_, ?_, ?_, ?_⟩
  · intro reg e h
    unfold scrape_one scrape_register_try
    rw [h]
  · intro reg d h1 h2 h3 h4 h5 hh
    unfold scrape_one scrape_register_try
    rw [hh]
    dsimp only
    simp [h1, h2, h3, h4, h5]
  · intro reg d s h1 hep hh hs hdec
    unfold climDecode at hdec
    unfold scrape_one scrape_register_try
    rw [hh]
    dsimp only
    simp only [h1, if_true, reduceIte, hep, hs]
    split_ifs at hdec
    simp_all [pyEqStr]
  · decide

/-- Witness for C5's quantified parts: the broken register of the concrete
scenario is omitted by the caught exception. -/
theorem scrape_all_isolates_failures_witness :
    scrape_one hubOneBroken regBrokenLight = (regBrokenLight, none) :=
  (scrape_all_isolates_failures hubOneBroken []).2.1 regBrokenLight
    (.exc "Request failed with status code 404, Point name: light.broken")
    rfl

/-! ### C4 -/

/-- C4: the hub-to-point decoding of `_scrape_all` and the point-to-hub
encoding of `_set_point` are mutually inverse on state registers.  For the
binary domains (light, switch, fan, input_boolean, reached via their
respective branches) hub `"on"`/`"off"` decode to 1/0, and a write of 1/0
issues exactly the domain's `turn_on`/`turn_off` service call; for climate
state registers the hub states off/heat/cool/auto decode per `climDecode` to
0/2/3/4, a write of such a value issues `set_hvac_mode` with the matching
mode string per `climEncode`, and `climDecode`/`climEncode` are mutually
inverse. -/
theorem state_codec_roundtrip (post : PostFn) (selfUnits : Option String) :
    (∀ (hub : HubFn) (reg : Register) (d : EntityData) (s : String),
      strContains reg.entity_id "climate." = false →
      (strStartsWith reg.entity_id "light." = true ∨
        strStartsWith reg.entity_id "input_boolean." = true ∨
        strStartsWith reg.entity_id "switch." = true ∨
        strStartsWith reg.entity_id "fan." = true) →
      reg.entity_point = "state" →
      hub reg.entity_id = .ok d → d.state = .vstr s →
      (s = "on" → scrape_one hub reg =
        ({ reg with value := .vint 1 }, some (reg.point_name, .vint 1))) ∧
      (s = "off" → scrape_one hub reg =
        ({ reg with value := .vint 0 }, some (reg.point_name, .vint 0)))) ∧
    (∀ (reg : Register) (value : PyVal) (dom : String),
      reg.read_only = false →
      dispatchDomain reg.entity_id = some dom → dom ≠ "climate" →
      reg.entity_point = "state" →
      (applyRegType reg.reg_type value = .ok (.vint 1) →
        (set_point post selfUnits reg value).calls =
          [⟨dom, "turn_on", [("entity_id", .vstr reg.entity_id)]⟩]) ∧
      (applyRegType reg.reg_type value = .ok (.vint 0) →
        (set_point post selfUnits reg value).calls =
          [⟨dom, "turn_off", [("entity_id", .vstr reg.entity_id)]⟩])) ∧
    (∀ (hub : HubFn) (reg : Register) (d : EntityData) (s : String) (k : Int),
      strContains reg.entity_id "climate." = true →
      reg.entity_point = "state" →
      hub reg.entity_id = .ok d → d.state = .vstr s →
      climDecode s = some k →
      scrape_one hub reg =
        ({ reg with value := .vint k }, some (reg.point_name, .vint k))) ∧
    (∀ (reg : Register) (value : PyVal) (k : Int) (m : String),
      reg.read_only = false →
      strContains reg.entity_id "light." = false →
      strContains reg.entity_id "input_boolean." = false →
      strContains reg.entity_id "switch." = false →
      strContains reg.entity_id "fan." = false →
      strContains reg.entity_id "climate." = true →
      strStartsWith reg.entity_id "climate." = true →
      reg.entity_point = "state" →
      climEncode k = some m →
      applyRegType reg.reg_type value = .ok (.vint k) →
      (set_point post selfUnits reg value).calls =
        [⟨"climate", "set_hvac_mode",
          [("entity_id", .vstr reg.entity_id), ("hvac_mode", .vstr m)]⟩]) ∧
    (∀ (s : String) (k : Int), climDecode s = some k ↔ climEncode k = some s) := by
  refine ⟨?_, ?_, ?_, ?_, ?_⟩
  · intro hub reg d s hcl hb hep hh hs
    unfold scrape_one scrape_register_try
    rw [hh]
    dsimp only
    rw [if_neg (by simp [hcl]), if_pos hb, if_pos hep, hs]
    constructor
    · intro h1
      subst h1
      simp [pyEqStr]
    · intro h0
      subst h0
      simp [pyEqStr]
  · intro reg value dom hro hd hdc hep
    unfold dispatchDomain at hd
    unfold set_point
    rw [hro]
    dsimp only
    by_cases h1 : strContains reg.entity_id "light."
    · rw [if_pos h1] at hd
      obtain rfl : "light" = dom := Option.some.inj hd
      constructor <;> intro hco <;> rw [hco] <;> dsimp only <;>
        simp [h1, hep, binaryOk, isInstInt, pyEqInt, pyToRat, finishSet,
          turn_on_lights, turn_off_lights, post_method]
    · rw [if_neg h1] at hd
      simp only [Bool.not_eq_true] at h1
      by_cases h2 : strContains reg.entity_id "input_boolean."
      · rw [if_pos h2] at hd
        obtain rfl : "input_boolean" = dom := Option.some.inj hd
        constructor <;> intro hco <;> rw [hco] <;> dsimp only <;>
          simp [h1, h2, hep, binaryOk, isInstInt, pyEqInt, pyToRat, finishSet,
            set_input_boolean]
      · rw [if_neg h2] at hd
        simp only [Bool.not_eq_true] at h2
        by_cases h3 : strContains reg.entity_id "switch."
        · rw [if_pos h3] at hd
          obtain rfl : "switch" = dom := Option.some.inj hd
          constructor <;> intro hco <;> rw [hco] <;> dsimp only <;>
            simp [h1, h2, h3, hep, binaryOk, isInstInt, pyEqInt, pyToRat,
              finishSet, handle_on_off_entity, validate_binary_state,
              turn_on_switch, turn_off_switch, call_ha_service, post_method]
        · rw [if_neg h3] at hd
          simp only [Bool.not_eq_true] at h3
          by_cases h4 : strContains reg.entity_id "fan."
          · rw [if_pos h4] at hd
            obtain rfl : "fan" = dom := Option.some.inj hd
            constructor <;> intro hco <;> rw [hco] <;> dsimp only <;>
              simp [h1, h2, h3, h4, hep, binaryOk, isInstInt, pyEqInt,
                pyToRat, finishSet, handle_on_off_entity,
                validate_binary_state, turn_on_fan, turn_off_fan,
                call_ha_service, post_method]
          · rw [if_neg h4] at hd
            simp only [Bool.not_eq_true] at h4
            by_cases h5 : strContains reg.entity_id "climate."
            · rw [if_pos h5] at hd
              exact absurd (Option.some.inj hd).symm hdc
            · rw [if_neg h5] at hd
              exact absurd hd (by simp)
  · intro hub reg d s k hcl hep hh hs hdec
    unfold scrape_one scrape_register_try
    rw [hh]
    dsimp only
    rw [if_pos hcl, if_pos hep, hs]
    unfold climDecode at hdec
    split_ifs at hdec with c0 c2 c3 c4
    · obtain rfl : (0 : Int) = k := Option.some.inj hdec
      subst c0
      simp [pyEqStr]
    · obtain rfl : (2 : Int) = k := Option.some.inj hdec
      subst c2
      simp [pyEqStr, c0]
    · obtain rfl : (3 : Int) = k := Option.some.inj hdec
      subst c3
      simp [pyEqStr, c0, c2]
    · obtain rfl : (4 : Int) = k := Option.some.inj hdec
      subst c4
      simp [pyEqStr, c0, c2, c3]
  · intro reg value k m hro h1 h2 h3 h4 h5 hpre hep henc hco
    unfold set_point
    rw [hro, hco]
    dsimp only
    rw [h1, h2, h3, h4, h5]
    simp only [Bool.false_eq_true, if_false, if_true, reduceIte, hep]
    unfold climEncode at henc
    split_ifs at henc with c0 c2 c3 c4
    · obtain rfl : "off" = m := Option.some.inj henc
      subst c0
      simp [climateStateOk, isInstInt, pyEqInt, pyToRat, finishSet,
        change_thermostat_mode, hpre, post_method]
    · obtain rfl : "heat" = m := Option.some.inj henc
      subst c2
      simp [climateStateOk, isInstInt, pyEqInt, pyToRat, finishSet,
        change_thermostat_mode, hpre, post_method]
    · obtain rfl : "cool" = m := Option.some.inj henc
      subst c3
      simp [climateStateOk, isInstInt, pyEqInt, pyToRat, finishSet,
        change_thermostat_mode, hpre, post_method]
    · obtain rfl : "auto" = m := Option.some.inj henc
      subst c4
      simp [climateStateOk, isInstInt, pyEqInt, pyToRat, finishSet,
        change_thermostat_mode, hpre, post_method]
  · intro s k
    unfold climDecode climEncode
    split_ifs <;> simp_all
    all_goals first | omega | exact Ne.symm (by assumption)

/-- The hub reporting `"on"` everywhere. -/
def hubOnEmpty : HubFn := fun _ => .ok { state := .vstr "on", attributes := [] }

/-- The hub reporting `"heat"` everywhere. -/
def hubHeatEmpty : HubFn :=
  fun _ => .ok { state := .vstr "heat", attributes := [] }

/-- A writable climate mode register. -/
def regThermoMode : Register :=
  sampleRegister "thermostat_mode" false "mode" .tint "climate.thermostat"
    "state"

/-- Witness for C4: decode of `"on"` on the healthy switch, encode of 1 as
`switch/turn_on`, decode of `"heat"` to 2 on the thermostat, encode of 2 as
`set_hvac_mode heat`, and the `cool`↔3 inverse pair. -/
theorem state_codec_roundtrip_witness :
    scrape_one hubOnEmpty regHealthySwitch =
      ({ regHealthySwitch with value := .vint 1 },
        some ("switch_state", .vint 1)) ∧
    (set_point postOk none regHealthySwitch (.vint 1)).calls =
      [⟨"switch", "turn_on", [("entity_id", .vstr "switch.outlet")]⟩] ∧
    scrape_one hubHeatEmpty regThermoMode =
      ({ regThermoMode with value := .vint 2 },
        some ("thermostat_mode", .vint 2)) ∧
    (set_point postOk none regThermoMode (.vint 2)).calls =
      [⟨"climate", "set_hvac_mode",
        [("entity_id", .vstr "climate.thermostat"),
         ("hvac_mode", .vstr "heat")]⟩] ∧
    climEncode 3 = some "cool" := by
  refine ⟨?_, ?_, ?_, ?_, ?_⟩
  · exact ((state_codec_roundtrip postOk none).1 hubOnEmpty regHealthySwitch
      { state := .vstr "on", attributes := [] } "on" (by decide)
      (Or.inr (Or.inr (Or.inl (by decide)))) rfl rfl rfl).1 rfl
  · exact ((state_codec_roundtrip postOk none).2.1 regHealthySwitch (.vint 1)
      "switch" rfl (by decide) (by decide) rfl).1 rfl
  · exact (state_codec_roundtrip postOk none).2.2.1 hubHeatEmpty regThermoMode
      { state := .vstr "heat", attributes := [] } "heat" 2 (by decide) rfl rfl
      rfl (by decide)
  · exact (state_codec_roundtrip postOk none).2.2.2.1 regThermoMode (.vint 2)
      2 "heat" rfl (by decide) (by decide) (by decide) (by decide) (by decide)
      (by decide) rfl (by decide) rfl
  · exact ((state_codec_roundtrip postOk none).2.2.2.2 "cool" 3).mp (by decide)

/-- Witness for C10 at the two-register catalog `defsC6`: the thermostat
register is in the parsed catalog and its stored value is `None`. -/
theorem parse_config_defaults_are_none_witness :
    regThermoTemp ∈ (parse_config {} (some defsC6)).1.catalog ∧
    regThermoTemp.value = .vnone :=
  ⟨by decide,
    (parse_config_defaults_are_none (some defsC6)).1 regThermoTemp (by decide)⟩

end HomeAssistant
